import Mathlib

/-!
Verification of the STOCK_BOT news bot (src/index.js) against its
natural-language specification.

The JavaScript source is shallowly embedded: strings are `List Char`,
JS `undefined`-able string values are `Option (List Char)`, timestamps
(`Date.now()`) are `Nat` milliseconds passed explicitly, the mutable
module-level caches (`articleCache : Set`, `titleCache : Map`) are an
explicit `CacheState` threaded through the functions, and the network
side effects (`bot.sendMessage`, `setTimeout`, `console` logging,
`addToCache` call sites) are recorded as an event trace.  Delivery
outcomes are supplied by an oracle (one `AttemptRes` per send attempt).
-/

set_option maxHeartbeats 1000000

set_option maxRecDepth 100000

namespace StockBot

/-- ASCII lowercasing of a JS string, modelling `String.prototype.toLowerCase`
on the ASCII inputs this program handles. -/
def toLowerList (l : List Char) : List Char := l.map Char.toLower

/-- Modelling `String.prototype.trim`: strip leading and trailing whitespace. -/
def trimList (l : List Char) : List Char :=
  ((l.dropWhile Char.isWhitespace).reverse.dropWhile Char.isWhitespace).reverse

/-- Modelling `String.prototype.includes`: `containsSub hay needle` is true
iff `needle` occurs contiguously inside `hay`. -/
def containsSub (hay needle : List Char) : Bool :=
  match hay with
  | [] => needle.isEmpty
  | _ :: t => needle.isPrefixOf hay || containsSub t needle

/-- Modelling `s.charAt(0).toUpperCase() + s.slice(1)` from `formatMessage`. -/
def capitalizeList : List Char → List Char
  | [] => []
  | c :: r => c.toUpper :: r

/-- JS regex word character class `\w` = `[A-Za-z0-9_]`. -/
def isWordChar (c : Char) : Bool := c.isAlphanum || c = '_'

/-- A `\b` word boundary holds at a position whose neighbouring character
(on the given side) is absent or not a word character, seen from inside a
run of word characters. -/
def boundaryOk : Option Char → Bool
  | none => true
  | some c => !isWordChar c

/-- Number of matches of `content.match(new RegExp('\\b' + kw + '\\b', 'g'))`:
non-overlapping, left to right, each occurrence of `kw` bounded by word
boundaries.  `prev` is the character just before the current scan position
(`none` at the start of the string).  The keywords used by the program are
nonempty words; an empty pattern counts 0. -/
def wbCountAux (kw : List Char) : Nat → Option Char → List Char → Nat
  | 0, _, _ => 0
  | _ + 1, _, [] => 0
  | fuel + 1, prev, c :: rest =>
    if kw.isEmpty then 0
    else if kw.isPrefixOf (c :: rest) && boundaryOk prev &&
        boundaryOk ((c :: rest).drop kw.length).head? then
      1 + wbCountAux kw fuel kw.getLast? ((c :: rest).drop kw.length)
    else
      wbCountAux kw fuel (some c) rest

def wbCount (kw : List Char) (prev : Option Char) (s : List Char) : Nat :=
  wbCountAux kw s.length prev s

/-- `MARKET_KEYWORDS` from src/index.js lines 55-67. -/
def MARKET_KEYWORDS : List String :=
  ["fed", "federal reserve", "interest rate", "rates", "inflation", "cpi", "gdp", "unemployment",
   "nifty", "sensex", "bse", "nse", "rbi", "sebi", "rupee", "rbi governor",
   "earnings", "revenue", "profit", "loss", "forecast", "guidance", "outlook",
   "crash", "correction", "bear market", "bull market", "recession", "depression",
   "rally", "surge", "plunge", "tumble", "soar", "slump",
   "stock market", "wall street", "dow jones", "nasdaq", "s&p", "russell",
   "treasury", "bond", "yield", "debt", "default",
   "ipo", "merger", "acquisition", "bankrupt", "chapter 11",
   "economic", "economy", "fiscal", "monetary policy",
   "stimulus", "bailout", "regulation", "deregulation",
   "trade war", "tariff", "sanction", "embargo"]

/-- `POSITIVE_KEYWORDS` from src/index.js lines 70-77. -/
def POSITIVE_KEYWORDS : List String :=
  ["rise", "rises", "rising", "rose", "gain", "gains", "gained", "up", "higher",
   "surge", "surges", "surged", "rally", "rallies", "rallied", "recover", "recovers", "recovered",
   "beat", "beats", "beating", "exceed", "exceeds", "exceeded", "outperform", "outperforms",
   "strong", "stronger", "strongest", "positive", "optimistic", "optimism", "confidence",
   "bullish", "boom", "soar", "soars", "soared", "jump", "jumps", "jumped",
   "growth", "expand", "expands", "expanded", "breakthrough", "success"]

/-- `NEGATIVE_KEYWORDS` from src/index.js lines 80-87. -/
def NEGATIVE_KEYWORDS : List String :=
  ["fall", "falls", "falling", "fell", "drop", "drops", "dropped", "down", "lower",
   "plunge", "plunges", "plunged", "tumble", "tumbles", "tumbled", "sink", "sinks", "sank",
   "miss", "misses", "missed", "fail", "fails", "failed", "underperform", "underperforms",
   "weak", "weaker", "weakest", "negative", "pessimistic", "pessimism", "concern", "concerned",
   "bearish", "bust", "crash", "crashes", "crashed", "collapse", "collapses", "collapsed",
   "decline", "declines", "declined", "shrink", "shrinks", "shrank", "crisis", "warning"]

/-- `MAX_CACHE_SIZE` from src/index.js line 27. -/
def MAX_CACHE_SIZE : Nat := 1000

/-- `MESSAGE_DELAY` from src/index.js line 50 (declared, and nowhere used
in the source). -/
def MESSAGE_DELAY : Nat := 2000

/-- An RSS feed item as consumed by the program: `guid`, `link`, `creator`,
`author`, `contentSnippet`, `isoDate` may be absent (`undefined`), `title`
is assumed present (the program applies string methods to it directly). -/
structure Article where
  guid : Option (List Char)
  link : Option (List Char)
  title : List Char
  contentSnippet : Option (List Char)
  creator : Option (List Char)
  author : Option (List Char)
  isoDate : Option (List Char)
deriving DecidableEq

/-- The result object of `analyzeSentiment`. -/
structure Sentiment where
  score : Int
  sentiment : List Char
  emoji : List Char
deriving DecidableEq

/-- `(article.title + ' ' + (article.contentSnippet || '')).toLowerCase()`,
shared by `isMarketRelevant` and `analyzeSentiment`. -/
def contentOf (a : Article) : List Char :=
  toLowerList (a.title ++ ' ' :: a.contentSnippet.getD [])

/-- `isMarketRelevant` from src/index.js lines 123-127. -/
def isMarketRelevant (a : Article) : Bool :=
  MARKET_KEYWORDS.any fun kw => containsSub (contentOf a) (toLowerList kw.data)

/-- The `positiveScore` accumulated by the first `forEach` of
`analyzeSentiment`: the word-boundary-bounded match count of each positive
keyword, summed. -/
def positiveScoreOf (a : Article) : Nat :=
  (POSITIVE_KEYWORDS.map fun kw => wbCount (toLowerList kw.data) none (contentOf a)).sum

/-- The `negativeScore` accumulated by the second `forEach` of
`analyzeSentiment`. -/
def negativeScoreOf (a : Article) : Nat :=
  (NEGATIVE_KEYWORDS.map fun kw => wbCount (toLowerList kw.data) none (contentOf a)).sum

/-- `analyzeSentiment` from src/index.js lines 134-172. -/
def analyzeSentiment (a : Article) : Sentiment :=
  if positiveScoreOf a > negativeScoreOf a then
    ⟨(positiveScoreOf a : Int) - negativeScoreOf a, "positive".data, "🟢".data⟩
  else if negativeScoreOf a > positiveScoreOf a then
    ⟨(positiveScoreOf a : Int) - negativeScoreOf a, "negative".data, "🔴".data⟩
  else
    ⟨(positiveScoreOf a : Int) - negativeScoreOf a, "neutral".data, "⚪".data⟩

/-- Model of the WHATWG `new URL(x).hostname` platform constructor for the
inputs this program can pass it: an `http://` or `https://` URL with a
nonempty host yields its hostname, anything else (no scheme, empty host,
or the string `"undefined"` arising from an absent link) fails, which in
the source surfaces as a thrown `TypeError`. -/
def urlHostname (l : List Char) : Option (List Char) :=
  if "https://".data.isPrefixOf l then
    let host := (l.drop 8).takeWhile fun c => c ≠ '/'
    if host.isEmpty then none else some host
  else if "http://".data.isPrefixOf l then
    let host := (l.drop 7).takeWhile fun c => c ≠ '/'
    if host.isEmpty then none else some host
  else none

/-- JS truthiness of a string value used by `||` chains: `undefined` and
the empty string are falsy. -/
def firstTruthy : Option (List Char) → Option (List Char)
  | none => none
  | some l => if l.isEmpty then none else some l

/-- `formatMessage` from src/index.js lines 180-195.  The only way it can
fail is the `new URL(link)` call, reached when both `article.creator` and
`article.author` are falsy; an absent link is interpolated as the string
`"undefined"`.  `Date.toLocaleString` is modelled as the identity on the
stored `isoDate` text (its exact rendering is irrelevant to every claim). -/
def formatMessage (a : Article) (s : Sentiment) : Except (List Char) (List Char) :=
  let title := trimList a.title
  let linkStr := match a.link with
    | some l => l
    | none => "undefined".data
  match firstTruthy a.creator with
  | some src => Except.ok (s.emoji ++ " <b>".data ++ title ++ "</b> Source: ".data ++ src ++
      " Published: ".data ++ (a.isoDate.getD "now".data) ++ " Sentiment: ".data ++
      capitalizeList s.sentiment ++ " ".data ++ linkStr)
  | none =>
    match firstTruthy a.author with
    | some src => Except.ok (s.emoji ++ " <b>".data ++ title ++ "</b> Source: ".data ++ src ++
        " Published: ".data ++ (a.isoDate.getD "now".data) ++ " Sentiment: ".data ++
        capitalizeList s.sentiment ++ " ".data ++ linkStr)
    | none =>
      match urlHostname linkStr with
      | some host => Except.ok (s.emoji ++ " <b>".data ++ title ++ "</b> Source: ".data ++ host ++
          " Published: ".data ++ (a.isoDate.getD "now".data) ++ " Sentiment: ".data ++
          capitalizeList s.sentiment ++ " ".data ++ linkStr)
      | none => Except.error ("Invalid URL".data)

/-- The two module-level caches: `articleCache` is a JS `Set` of the values
`article.guid || article.link` (a string or `undefined`), kept in insertion
order; `titleCache` is a JS `Map` from normalized title to the timestamp it
was recorded at, kept in insertion order. -/
structure CacheState where
  articleCache : List (Option (List Char))
  titleCache : List (List Char × Nat)
deriving DecidableEq

/-- `title.toLowerCase().trim()`, the normalization applied to titles both
when storing into and when querying `titleCache`. -/
def normalizeTitle (t : List Char) : List Char := trimList (toLowerList t)

/-- JS `Set.prototype.add`: appends iff the value is not already present
(insertion order of an existing element is unchanged). -/
def setAdd {α : Type} [DecidableEq α] (l : List α) (x : α) : List α :=
  if x ∈ l then l else l ++ [x]

/-- JS `Map.prototype.set`: updates the value in place if the key is
present (keeping its position), else appends. -/
def mapSet : List (List Char × Nat) → List Char → Nat → List (List Char × Nat)
  | [], k, v => [(k, v)]
  | (k', v') :: rest, k, v =>
    if k' = k then (k', v) :: rest else (k', v') :: mapSet rest k v

/-- `addToCache` from src/index.js lines 254-266: insert the id into
`articleCache` and the normalized title (stamped `now`) into `titleCache`;
then, if the set has grown past `MAX_CACHE_SIZE`, keep only the last
`Math.floor(MAX_CACHE_SIZE / 2)` ids (`slice(-500)` of the insertion-order
array). -/
def addToCache (now : Nat) (articleId : Option (List Char)) (title : List Char)
    (st : CacheState) : CacheState :=
  let ac := setAdd st.articleCache articleId
  let tc := mapSet st.titleCache (normalizeTitle title) now
  if ac.length > MAX_CACHE_SIZE then
    ⟨ac.drop (ac.length - MAX_CACHE_SIZE / 2), tc⟩
  else
    ⟨ac, tc⟩

/-- The `for (const [cachedTitle, timestamp] of titleCache)` loop body of
`isSimilarTitleExists`: entries older than one hour (strictly more than
3600000 ms before `now`) are deleted and skipped; a surviving entry that
contains the normalized input or is contained in it stops the loop with
`true` (leaving the rest of the map untouched); otherwise the scan goes on.
Returns the result together with the contents of `titleCache` after the
call. -/
def simScan (now : Nat) (nt : List Char) :
    List (List Char × Nat) → Bool × List (List Char × Nat)
  | [] => (false, [])
  | (ct, ts) :: rest =>
    if now - ts > 3600000 then simScan now nt rest
    else if containsSub ct nt || containsSub nt ct then (true, (ct, ts) :: rest)
    else
      let r := simScan now nt rest
      (r.1, (ct, ts) :: r.2)

/-- `isSimilarTitleExists` from src/index.js lines 232-247. -/
def isSimilarTitleExists (now : Nat) (title : List Char)
    (cache : List (List Char × Nat)) : Bool × List (List Char × Nat) :=
  simScan now (normalizeTitle title) cache

/-- Outcome of one `bot.sendMessage` attempt, supplied by the environment:
success, a 429 rate-limit error (optionally carrying the server's
`retry after N` seconds hint), or any other delivery error. -/
inductive AttemptRes
  | ok
  | rateLimited (retryAfter : Option Nat)
  | err (msg : List Char)
deriving DecidableEq

/-- Observable events of a poll tick. -/
inductive Ev
  | attempt
  | sleep (ms : Nat)
  | logSent
  | logSendErr (msg : List Char)
  | logMaxRetries
  | record (articleId : Option (List Char)) (title : List Char)
  | logFeedErr (msg : List Char)
deriving DecidableEq

/-- Backoff wait in ms: the server-specified `retry after N` seconds times
1000 when the 429 message carries one, else the 30000 ms default. -/
def waitTime : Option Nat → Nat
  | some s => s * 1000
  | none => 30000

/-- The `while (retries < maxRetries)` loop of `sendToTelegram`
(src/index.js lines 202-225).  `o n` is the outcome of the `n`-th attempt;
`fuel` is `maxRetries - retries`.  Success and non-429 errors both return
out of the loop; a 429 sleeps and retries; falling off the loop logs
`Max retries reached`. -/
def sendLoop (o : Nat → AttemptRes) : Nat → Nat → List Ev
  | 0, _ => [Ev.logMaxRetries]
  | fuel + 1, idx =>
    match o idx with
    | .ok => [Ev.attempt, Ev.logSent]
    | .rateLimited r => Ev.attempt :: Ev.sleep (waitTime r) :: sendLoop o fuel (idx + 1)
    | .err m => [Ev.attempt, Ev.logSendErr m]

/-- `sendToTelegram` from src/index.js lines 202-225, as the trace of
events it produces; it catches every delivery error itself and always
returns normally to its caller. -/
def sendToTelegram (o : Nat → AttemptRes) : List Ev :=
  sendLoop o 3 0

/-- `article.guid || article.link`: the guid when truthy, else the link
value (possibly `undefined`). -/
def jsId (a : Article) : Option (List Char) :=
  match firstTruthy a.guid with
  | some g => some g
  | none => a.link

/-- Result of processing the items of one feed: the events emitted, the
cache afterwards, the number of `sendToTelegram` calls made so far in the
tick, and the error that escaped to the per-feed `catch`, if any. -/
structure ItemsResult where
  evs : List Ev
  cache : CacheState
  calls : Nat
  thrown : Option (List Char)
deriving DecidableEq

/-- The `for (const article of feed.items)` loop of `checkNewsFeeds`
(src/index.js lines 279-302).  `o c` is the attempt oracle of the `c`-th
`sendToTelegram` call of the tick.  A seen id skips the item without
touching `titleCache` (the `||` short-circuits); otherwise the similarity
check runs (purging as it goes); a relevant article is scored, formatted
and dispatched, then `addToCache` runs unconditionally; a throw from
`formatMessage` aborts the remaining items of this feed. -/
def processItems (o : Nat → Nat → AttemptRes) (now : Nat) :
    List Article → CacheState → Nat → ItemsResult
  | [], cache, calls => ⟨[], cache, calls, none⟩
  | a :: rest, cache, calls =>
    if jsId a ∈ cache.articleCache then
      processItems o now rest cache calls
    else
      let sim := isSimilarTitleExists now a.title cache.titleCache
      let cache1 : CacheState := ⟨cache.articleCache, sim.2⟩
      if sim.1 then
        processItems o now rest cache1 calls
      else if isMarketRelevant a then
        match formatMessage a (analyzeSentiment a) with
        | .error e => ⟨[], cache1, calls, some e⟩
        | .ok _ =>
          let sendEvs := sendToTelegram (o calls)
          let cache2 := addToCache now (jsId a) a.title cache1
          let r := processItems o now rest cache2 (calls + 1)
          ⟨sendEvs ++ Ev.record (jsId a) a.title :: r.evs, r.cache, r.calls, r.thrown⟩
      else
        processItems o now rest cache1 calls

/-- Result of a whole tick: events and final cache. -/
structure TickResult where
  evs : List Ev
  cache : CacheState
  calls : Nat
deriving DecidableEq

/-- The `for (const feedUrl of RSS_FEEDS)` loop of `checkNewsFeeds`: each
feed either failed to fetch/parse (`Except.error`) or produced a list of
items; any error thrown while processing items is caught here, logged, and
the tick moves on to the next feed. -/
def processFeeds (o : Nat → Nat → AttemptRes) (now : Nat) :
    List (Except (List Char) (List Article)) → CacheState → Nat → TickResult
  | [], cache, calls => ⟨[], cache, calls⟩
  | Except.error e :: rest, cache, calls =>
    let r := processFeeds o now rest cache calls
    ⟨Ev.logFeedErr e :: r.evs, r.cache, r.calls⟩
  | Except.ok items :: rest, cache, calls =>
    let ir := processItems o now items cache calls
    let tailEvs := match ir.thrown with
      | some e => [Ev.logFeedErr e]
      | none => []
    let r := processFeeds o now rest ir.cache ir.calls
    ⟨ir.evs ++ tailEvs ++ r.evs, r.cache, r.calls⟩

/-- `checkNewsFeeds` from src/index.js lines 271-307, over the fetched
feed contents of this tick. -/
def checkNewsFeeds (o : Nat → Nat → AttemptRes) (now : Nat)
    (feeds : List (Except (List Char) (List Article))) (cache : CacheState) : TickResult :=
  processFeeds o now feeds cache 0

/-- Is this event a `bot.sendMessage` attempt? -/
def isAttemptEv : Ev → Bool
  | .attempt => true
  | _ => false

/-- Is this event a `setTimeout` sleep? -/
def isSleepEv : Ev → Bool
  | .sleep _ => true
  | _ => false

/-- Is this event an `addToCache` call? -/
def isRecordEv : Ev → Bool
  | .record _ _ => true
  | _ => false

/-- Events with which `sendToTelegram` returns normally to its caller. -/
def isTerminatorEv : Ev → Bool
  | .logSent => true
  | .logSendErr _ => true
  | .logMaxRetries => true
  | _ => false

/-! ## Concrete fixtures used by witnesses and counterexamples -/

/-- A market-relevant article (keyword `fed`) with a truthy `creator`, so
`formatMessage` succeeds without touching the URL constructor. -/
def artFed : Article := ⟨some "g1".data, none, "fed".data, none, some "c1".data, none, none⟩

/-- A second relevant article (keyword `gdp`), distinct id, dissimilar
title, formatting via its `creator`. -/
def artGdp : Article := ⟨some "g2".data, none, "gdp".data, none, some "c2".data, none, none⟩

/-- A market-relevant article with no `creator`, no `author`, and a link
the URL constructor rejects: `formatMessage` throws on it. -/
def artBadUrl : Article :=
  ⟨some "b1".data, some "not a url".data, "fed market".data, none, none, none, none⟩

/-- Oracle: every send attempt succeeds. -/
def oracleOk : Nat → Nat → AttemptRes := fun _ _ => AttemptRes.ok

/-- Oracle: every send attempt fails with a non-rate-limit delivery error. -/
def oracleErr : Nat → Nat → AttemptRes := fun _ _ => AttemptRes.err ("boom".data)

/-- Oracle for a single dispatch: every attempt is rate-limited with a
server hint of 7 seconds. -/
def oracleRL : Nat → AttemptRes := fun _ => AttemptRes.rateLimited (some 7)

/-- `MAX_CACHE_SIZE` distinct identifiers, to drive the eviction branch of
`addToCache`. -/
def bigIds : List (Option (List Char)) :=
  (List.range MAX_CACHE_SIZE).map fun n =>
    some ['#', Char.ofNat (48 + n / 100), Char.ofNat (48 + n / 10 % 10), Char.ofNat (48 + n % 10)]

/-- A fresh identifier not among `bigIds`. -/
def newId0 : Option (List Char) := some "fresh".data

/-! ## Helper lemmas -/

theorem containsSub_spec (hay needle : List Char) :
    containsSub hay needle = true ↔ needle <:+: hay := by
  induction hay with
  | nil => simp [containsSub]
  | cons c t ih =>
    rw [containsSub, List.infix_cons_iff]
    simp [ih]

theorem sendLoop_countP_record (o : Nat → AttemptRes) :
    ∀ fuel idx, (sendLoop o fuel idx).countP isRecordEv = 0 := by
  intro fuel
  induction fuel with
  | zero => intro idx; simp [sendLoop, isRecordEv]
  | succ n ih =>
    intro idx
    rcases h : o idx with _ | r | m <;>
      simp [sendLoop, h, List.countP_cons, isRecordEv, ih]

theorem sendToTelegram_head (o : Nat → AttemptRes) :
    (sendToTelegram o).head? = some Ev.attempt := by
  unfold sendToTelegram
  rcases h : o 0 with _ | r | m <;> simp [sendLoop, h]

theorem mem_addToCache_articleCache (now : Nat) (id : Option (List Char)) (ttl : List Char)
    (st : CacheState) (hseen : id ∉ st.articleCache) :
    id ∈ (addToCache now id ttl st).articleCache := by
  unfold addToCache setAdd
  rw [if_neg hseen]
  by_cases h : (st.articleCache ++ [id]).length > MAX_CACHE_SIZE
  · rw [if_pos h]
    simp only [List.length_append, List.length_cons, List.length_nil, MAX_CACHE_SIZE] at h ⊢
    rw [List.drop_append_of_le_length (by omega)]
    simp
  · rw [if_neg h]
    simp

theorem mem_mapSet (m : List (List Char × Nat)) (k : List Char) (v : Nat) :
    (k, v) ∈ mapSet m k v := by
  induction m with
  | nil => simp [mapSet]
  | cons head tail ih =>
    obtain ⟨k', v'⟩ := head
    by_cases h : k' = k
    · simp [mapSet, h]
    · simp only [mapSet, if_neg h, List.mem_cons]
      exact Or.inr ih

/-! ## Claim theorems -/

/-- C4: `analyzeSentiment` scores an entry by counting, over the lowercased
title-plus-snippet text, the non-overlapping word-boundary-bounded
occurrences of each positive keyword minus those of each negative keyword
(that is what `wbCount` embeds); the label is `positive` iff the score is
positive, `negative` iff negative, `neutral` iff zero; and the entry with
title "Stocks surge as rally continues" and empty snippet scores 2 with the
positive label. -/
theorem c4_sentiment_score_and_label :
    (∀ a : Article,
      (analyzeSentiment a).score =
        (positiveScoreOf a : Int) - (negativeScoreOf a : Int) ∧
      ((analyzeSentiment a).sentiment = "positive".data ↔ 0 < (analyzeSentiment a).score) ∧
      ((analyzeSentiment a).sentiment = "negative".data ↔ (analyzeSentiment a).score < 0) ∧
      ((analyzeSentiment a).sentiment = "neutral".data ↔ (analyzeSentiment a).score = 0)) ∧
    analyzeSentiment ⟨none, none, "Stocks surge as rally continues".data, some [], none, none, none⟩ =
      ⟨2, "positive".data, "🟢".data⟩ := by
  constructor
  · intro a
    generalize hP : positiveScoreOf a = p
    generalize hN : negativeScoreOf a = n
    unfold analyzeSentiment
    rw [hP, hN]
    rcases Nat.lt_trichotomy p n with h | h | h
    · rw [if_neg (by omega), if_pos h]
      dsimp only
      refine ⟨rfl, ?_, ?_, ?_⟩
      · exact ⟨fun h2 => absurd h2 (by decide), fun h2 => absurd h2 (by omega)⟩
      · exact ⟨fun _ => by omega, fun _ => rfl⟩
      · exact ⟨fun h2 => absurd h2 (by decide), fun h2 => absurd h2 (by omega)⟩
    · rw [if_neg (by omega), if_neg (by omega)]
      dsimp only
      refine ⟨rfl, ?_, ?_, ?_⟩
      · exact ⟨fun h2 => absurd h2 (by decide), fun h2 => absurd h2 (by omega)⟩
      · exact ⟨fun h2 => absurd h2 (by decide), fun h2 => absurd h2 (by omega)⟩
      · exact ⟨fun _ => by omega, fun _ => rfl⟩
    · rw [if_pos h]
      dsimp only
      refine ⟨rfl, ?_, ?_, ?_⟩
      · exact ⟨fun _ => by omega, fun _ => rfl⟩
      · exact ⟨fun h2 => absurd h2 (by decide), fun h2 => absurd h2 (by omega)⟩
      · exact ⟨fun h2 => absurd h2 (by decide), fun h2 => absurd h2 (by omega)⟩
  · decide

/-- C5: `isMarketRelevant` holds iff some keyword of the fixed market list
occurs as a (case-insensitive, not word-bounded) contiguous substring of
the lowercased space-joined title-plus-snippet text (missing snippet read
as empty), and the entry titled "Fed raises interest rates" with empty
snippet is relevant. -/
theorem c5_relevance_substring :
    (∀ a : Article,
      isMarketRelevant a = true ↔
        ∃ kw ∈ MARKET_KEYWORDS, toLowerList kw.data <:+: contentOf a) ∧
    isMarketRelevant ⟨none, none, "Fed raises interest rates".data, some [], none, none, none⟩ = true := by
  constructor
  · intro a
    rw [isMarketRelevant, List.any_eq_true]
    simp only [containsSub_spec]
  · decide

/-- C2: after any `addToCache` call the `articleCache` set holds at most
`MAX_CACHE_SIZE` (1000) identifiers; and whenever the insertion pushes its
size above that capacity, the eviction leaves exactly
`MAX_CACHE_SIZE / 2` (500) identifiers — precisely the most-recently
inserted suffix, in insertion order, the oldest-inserted prefix being
discarded. -/
theorem c2_seenset_capacity (st : CacheState) (now : Nat) (id : Option (List Char))
    (ttl : List Char) :
    (addToCache now id ttl st).articleCache.length ≤ MAX_CACHE_SIZE ∧
    ((setAdd st.articleCache id).length > MAX_CACHE_SIZE →
      (addToCache now id ttl st).articleCache.length = MAX_CACHE_SIZE / 2 ∧
      (addToCache now id ttl st).articleCache =
        (setAdd st.articleCache id).drop
          ((setAdd st.articleCache id).length - MAX_CACHE_SIZE / 2) ∧
      (setAdd st.articleCache id).take
          ((setAdd st.articleCache id).length - MAX_CACHE_SIZE / 2) ++
        (addToCache now id ttl st).articleCache = setAdd st.articleCache id) := by
  unfold addToCache
  by_cases h : (setAdd st.articleCache id).length > MAX_CACHE_SIZE
  · rw [if_pos h]
    dsimp only
    refine ⟨?_, fun _ => ⟨?_, rfl, List.take_append_drop _ _⟩⟩ <;>
      · rw [List.length_drop]
        unfold MAX_CACHE_SIZE at h ⊢
        omega
  · rw [if_neg h]
    dsimp only
    exact ⟨by omega, fun hc => absurd hc h⟩

/-- Witness for C2 at a concrete overflowing store: 1000 distinct ids plus
a fresh one trip the eviction down to the most recent 500. -/
theorem c2_seenset_capacity_witness :
    (setAdd (CacheState.mk bigIds []).articleCache newId0).length > MAX_CACHE_SIZE ∧
    ((addToCache 77 newId0 ("t".data) ⟨bigIds, []⟩).articleCache.length = MAX_CACHE_SIZE / 2 ∧
      (addToCache 77 newId0 ("t".data) ⟨bigIds, []⟩).articleCache =
        (setAdd (CacheState.mk bigIds []).articleCache newId0).drop
          ((setAdd (CacheState.mk bigIds []).articleCache newId0).length - MAX_CACHE_SIZE / 2) ∧
      (setAdd (CacheState.mk bigIds []).articleCache newId0).take
          ((setAdd (CacheState.mk bigIds []).articleCache newId0).length - MAX_CACHE_SIZE / 2) ++
        (addToCache 77 newId0 ("t".data) ⟨bigIds, []⟩).articleCache =
        setAdd (CacheState.mk bigIds []).articleCache newId0) := by
  have h : (setAdd (CacheState.mk bigIds []).articleCache newId0).length > MAX_CACHE_SIZE := by
    have hmem : newId0 ∉ bigIds := by decide
    rw [setAdd, if_neg hmem]
    rw [List.length_append]
    rw [bigIds, List.length_map, List.length_range]
    decide
  exact ⟨h, (c2_seenset_capacity ⟨bigIds, []⟩ 77 newId0 ("t".data)).2 h⟩

/-- C6: `isSimilarTitleExists` returns true iff some cached title at most
3600000 ms old (the boundary itself surviving: only strictly older entries
are purged) contains the normalized input title or is contained in it; in
particular a cached title strictly older than 3600000 ms can never cause a
true result. -/
theorem c6_similar_title_iff (now : Nat) (title : List Char)
    (cache : List (List Char × Nat)) :
    (isSimilarTitleExists now title cache).1 = true ↔
      ∃ p ∈ cache, now - p.2 ≤ 3600000 ∧
        (containsSub p.1 (normalizeTitle title) = true ∨
         containsSub (normalizeTitle title) p.1 = true) := by
  unfold isSimilarTitleExists
  induction cache with
  | nil => simp [simScan]
  | cons head tail ih =>
    obtain ⟨ct, ts⟩ := head
    rw [List.exists_mem_cons_iff]
    by_cases h1 : now - ts > 3600000
    · rw [simScan, if_pos h1, ih]
      constructor
      · exact fun h => Or.inr h
      · rintro (⟨hle, _⟩ | h)
        · omega
        · exact h
    · rw [simScan, if_neg h1]
      by_cases h2 : (containsSub ct (normalizeTitle title) ||
          containsSub (normalizeTitle title) ct) = true
      · rw [if_pos h2]
        refine ⟨fun _ => Or.inl ⟨by omega, ?_⟩, fun _ => rfl⟩
        simpa using h2
      · rw [if_neg h2]
        have h2' := h2
        simp only [Bool.or_eq_true, not_or] at h2'
        constructor
        · intro h
          exact Or.inr (ih.1 h)
        · rintro (⟨_, hc⟩ | h)
          · rcases hc with hc | hc
            · exact absurd hc h2'.1
            · exact absurd hc h2'.2
          · exact ih.2 h

/-- Counterexample to C7 as stated: a call that finds a similar fresh title
returns early and leaves a strictly-stale entry (age 5000000 ms) in
`titleCache`. -/
theorem c7_counterexample :
    (isSimilarTitleExists 5000000 ("fed".data)
        [("fed news".data, 5000000), ("zz".data, 0)]).1 = true ∧
    ("zz".data, 0) ∈ (isSimilarTitleExists 5000000 ("fed".data)
        [("fed news".data, 5000000), ("zz".data, 0)]).2 ∧
    5000000 - 0 > 3600000 := by decide

/-- C7 (amended): a call to `isSimilarTitleExists` that returns false has
scanned the whole map and purged every entry strictly older than
3600000 ms; a call that returns true stops at the match and may leave
stale entries behind it. -/
theorem c7_purge_on_false (now : Nat) (title : List Char)
    (cache : List (List Char × Nat))
    (h : (isSimilarTitleExists now title cache).1 = false) :
    ∀ p ∈ (isSimilarTitleExists now title cache).2, now - p.2 ≤ 3600000 := by
  unfold isSimilarTitleExists at h ⊢
  induction cache with
  | nil => simp [simScan]
  | cons head tail ih =>
    obtain ⟨ct, ts⟩ := head
    by_cases h1 : now - ts > 3600000
    · rw [simScan, if_pos h1] at h ⊢
      exact ih h
    · by_cases h2 : (containsSub ct (normalizeTitle title) ||
          containsSub (normalizeTitle title) ct) = true
      · rw [simScan, if_neg h1, if_pos h2] at h
        exact absurd h (by simp)
      · rw [simScan, if_neg h1, if_neg h2] at h ⊢
        intro p hp
        rcases List.mem_cons.1 hp with hp | hp
        · subst hp
          omega
        · exact ih h p hp

/-- Witness for C7 (amended): a false-returning call on a cache holding one
fresh, dissimilar title leaves only in-window entries. -/
theorem c7_purge_on_false_witness :
    (isSimilarTitleExists 5000000 ("qq".data) [("aa".data, 4000000)]).1 = false ∧
    ∀ p ∈ (isSimilarTitleExists 5000000 ("qq".data) [("aa".data, 4000000)]).2,
      5000000 - p.2 ≤ 3600000 :=
  ⟨by decide, c7_purge_on_false 5000000 ("qq".data) [("aa".data, 4000000)] (by decide)⟩

/-- C9: `sendToTelegram` makes at most 3 send attempts; it always returns
normally to its caller (its trace ends in one of the normal-return log
events, never an escaping error); and when the first three attempts are all
rate-limited it waits, after each, the server-specified `retry after`
seconds (times 1000) or the 30000 ms default, retries the same message,
and after the third failure logs abandonment. -/
theorem c9_rate_limit_retry (o : Nat → AttemptRes) :
    (sendToTelegram o).countP isAttemptEv ≤ 3 ∧
    (∃ e, (sendToTelegram o).getLast? = some e ∧ isTerminatorEv e = true) ∧
    (∀ r0 r1 r2, o 0 = AttemptRes.rateLimited r0 → o 1 = AttemptRes.rateLimited r1 →
      o 2 = AttemptRes.rateLimited r2 →
      sendToTelegram o = [Ev.attempt, Ev.sleep (waitTime r0), Ev.attempt,
        Ev.sleep (waitTime r1), Ev.attempt, Ev.sleep (waitTime r2), Ev.logMaxRetries]) := by
  unfold sendToTelegram
  rcases h0 : o 0 with _ | r0 | m0 <;> rcases h1 : o 1 with _ | r1 | m1 <;>
    rcases h2 : o 2 with _ | r2 | m2 <;>
      simp [sendLoop, h0, h1, h2, List.countP_cons, isAttemptEv, isTerminatorEv]

/-- Witness for C9: three rate-limited attempts with a 7-second server hint
produce exactly three attempts separated by 7000 ms waits, then
abandonment. -/
theorem c9_rate_limit_retry_witness :
    oracleRL 0 = AttemptRes.rateLimited (some 7) ∧
    sendToTelegram oracleRL = [Ev.attempt, Ev.sleep (waitTime (some 7)), Ev.attempt,
      Ev.sleep (waitTime (some 7)), Ev.attempt, Ev.sleep (waitTime (some 7)),
      Ev.logMaxRetries] :=
  ⟨rfl, (c9_rate_limit_retry oracleRL).2.2 (some 7) (some 7) (some 7) rfl rfl rfl⟩

/-- C8 is false of the code: `MESSAGE_DELAY` is declared but never used, so
a tick that dispatches two successive messages (here two relevant articles
of one feed, both delivered on the first attempt) emits the two dispatches
back to back with no sleep at all between them. -/
theorem c8_no_delay_between_dispatches :
    MESSAGE_DELAY = 2000 ∧
    (checkNewsFeeds oracleOk 0 [Except.ok [artFed, artGdp]] ⟨[], []⟩).evs =
      [Ev.attempt, Ev.logSent, Ev.record (some ("g1".data)) ("fed".data),
       Ev.attempt, Ev.logSent, Ev.record (some ("g2".data)) ("gdp".data)] ∧
    (checkNewsFeeds oracleOk 0 [Except.ok [artFed, artGdp]] ⟨[], []⟩).evs.countP isSleepEv = 0 := by
  refine ⟨rfl, by decide, by decide⟩

/-- C10: an entry that is market-relevant, has neither `creator` nor
`author`, and has a link the URL constructor rejects makes `formatMessage`
throw; the exception is caught only at the per-feed level, so the remaining
entries of that feed are skipped for the tick (nothing is sent or cached),
while the same remaining entry alone in a feed would be dispatched and
recorded. -/
theorem c10_format_throw_skips_feed :
    isMarketRelevant artBadUrl = true ∧
    artBadUrl.creator = none ∧ artBadUrl.author = none ∧
    urlHostname ("not a url".data) = none ∧
    (formatMessage artBadUrl (analyzeSentiment artBadUrl)).isOk = false ∧
    checkNewsFeeds oracleOk 0 [Except.ok [artBadUrl, artGdp]] ⟨[], []⟩ =
      ⟨[Ev.logFeedErr ("Invalid URL".data)], ⟨[], []⟩, 0⟩ ∧
    checkNewsFeeds oracleOk 0 [Except.ok [artGdp]] ⟨[], []⟩ =
      ⟨[Ev.attempt, Ev.logSent, Ev.record (some ("g2".data)) ("gdp".data)],
        ⟨[some ("g2".data)], [("gdp".data, 0)]⟩, 1⟩ := by
  refine ⟨by decide, rfl, rfl, by decide, by decide, by decide, by decide⟩

/-- The cache as it stands right after an entry is dispatched and recorded:
the similarity scan has purged `titleCache`, then `addToCache` has run. -/
def postDispatchCache (now : Nat) (a : Article) (cache : CacheState) : CacheState :=
  addToCache now (jsId a) a.title
    ⟨cache.articleCache, (isSimilarTitleExists now a.title cache.titleCache).2⟩

theorem addToCache_titleCache (now : Nat) (id : Option (List Char)) (ttl : List Char)
    (st : CacheState) :
    (addToCache now id ttl st).titleCache = mapSet st.titleCache (normalizeTitle ttl) now := by
  unfold addToCache
  dsimp only
  split_ifs <;> rfl

/-- Unfolding of `processItems` on an entry that reaches dispatch: ids not
seen, title not similar, market-relevant, message formats.  Its events are
the dispatch trace followed by exactly one `record`, its state continues
from `postDispatchCache`, whatever the delivery outcome. -/
theorem processItems_dispatch_eq (o : Nat → Nat → AttemptRes) (now : Nat) (a : Article)
    (rest : List Article) (cache : CacheState) (calls : Nat)
    (hseen : jsId a ∉ cache.articleCache)
    (hsim : (isSimilarTitleExists now a.title cache.titleCache).1 = false)
    (hrel : isMarketRelevant a = true)
    (hfmt : (formatMessage a (analyzeSentiment a)).isOk = true) :
    processItems o now (a :: rest) cache calls =
      ⟨sendToTelegram (o calls) ++ Ev.record (jsId a) a.title ::
          (processItems o now rest (postDispatchCache now a cache) (calls + 1)).evs,
        (processItems o now rest (postDispatchCache now a cache) (calls + 1)).cache,
        (processItems o now rest (postDispatchCache now a cache) (calls + 1)).calls,
        (processItems o now rest (postDispatchCache now a cache) (calls + 1)).thrown⟩ := by
  obtain ⟨msg, hmsg⟩ : ∃ m, formatMessage a (analyzeSentiment a) = Except.ok m := by
    rcases hf : formatMessage a (analyzeSentiment a) with e | m
    · rw [hf] at hfmt
      simp [Except.isOk, Except.toBool] at hfmt
    · exact ⟨m, rfl⟩
  rw [processItems, if_neg hseen]
  simp only [hsim, hrel, hmsg, postDispatchCache, if_true, if_false, Bool.false_eq_true,
    ite_false, ite_true]

/-- Counterexample to C1 as stated: `artBadUrl` passes the relevance filter
during the tick, yet `addToCache` is never called for it (its record count
is 0 and the cache is untouched), because `formatMessage` throws before any
dispatch attempt. -/
theorem c1_counterexample :
    isMarketRelevant artBadUrl = true ∧
    (checkNewsFeeds oracleOk 0 [Except.ok [artBadUrl]] ⟨[], []⟩).evs.countP isRecordEv = 0 ∧
    (checkNewsFeeds oracleOk 0 [Except.ok [artBadUrl]] ⟨[], []⟩).cache = ⟨[], []⟩ := by
  refine ⟨by decide, by decide, by decide⟩

/-- C1 (amended): for every entry that passes the relevance filter and
whose message formatting succeeds, `addToCache` is called exactly once —
after the dispatch attempt completes — whatever the delivery outcome
(success, non-retryable failure, or exhausted retries); an entry whose
message formatting throws is not recorded at all and aborts its feed for
the tick.  The dispatch trace opens with a send attempt and itself contains
no record event, and exactly one record event for the entry precedes the
processing of the remaining entries. -/
theorem c1_record_once_after_dispatch (o : Nat → Nat → AttemptRes) (now : Nat) (a : Article)
    (rest : List Article) (cache : CacheState) (calls : Nat)
    (hseen : jsId a ∉ cache.articleCache)
    (hsim : (isSimilarTitleExists now a.title cache.titleCache).1 = false)
    (hrel : isMarketRelevant a = true)
    (hfmt : (formatMessage a (analyzeSentiment a)).isOk = true) :
    processItems o now (a :: rest) cache calls =
      ⟨sendToTelegram (o calls) ++ Ev.record (jsId a) a.title ::
          (processItems o now rest (postDispatchCache now a cache) (calls + 1)).evs,
        (processItems o now rest (postDispatchCache now a cache) (calls + 1)).cache,
        (processItems o now rest (postDispatchCache now a cache) (calls + 1)).calls,
        (processItems o now rest (postDispatchCache now a cache) (calls + 1)).thrown⟩ ∧
    (sendToTelegram (o calls)).countP isRecordEv = 0 ∧
    (sendToTelegram (o calls)).head? = some Ev.attempt :=
  ⟨processItems_dispatch_eq o now a rest cache calls hseen hsim hrel hfmt,
    sendLoop_countP_record (o calls) 3 0,
    sendToTelegram_head (o calls)⟩

/-- Witness for C1 (amended) at `artFed` on an empty cache with an
all-success oracle. -/
theorem c1_record_once_after_dispatch_witness :
    jsId artFed ∉ (CacheState.mk [] []).articleCache ∧
    (isSimilarTitleExists 0 artFed.title (CacheState.mk [] []).titleCache).1 = false ∧
    isMarketRelevant artFed = true ∧
    (formatMessage artFed (analyzeSentiment artFed)).isOk = true ∧
    (processItems oracleOk 0 [artFed] ⟨[], []⟩ 0 =
      ⟨sendToTelegram (oracleOk 0) ++ Ev.record (jsId artFed) artFed.title ::
          (processItems oracleOk 0 [] (postDispatchCache 0 artFed ⟨[], []⟩) 1).evs,
        (processItems oracleOk 0 [] (postDispatchCache 0 artFed ⟨[], []⟩) 1).cache,
        (processItems oracleOk 0 [] (postDispatchCache 0 artFed ⟨[], []⟩) 1).calls,
        (processItems oracleOk 0 [] (postDispatchCache 0 artFed ⟨[], []⟩) 1).thrown⟩ ∧
      (sendToTelegram (oracleOk 0)).countP isRecordEv = 0 ∧
      (sendToTelegram (oracleOk 0)).head? = some Ev.attempt) :=
  ⟨by decide, by decide, by decide, by decide,
    c1_record_once_after_dispatch oracleOk 0 artFed [] ⟨[], []⟩ 0
      (by decide) (by decide) (by decide) (by decide)⟩

/-- Counterexample to C3 as stated: a non-rate-limit delivery failure
("boom") abandons the message after a single attempt, yet the entry IS
recorded — the tick ends with its id in `articleCache` and its normalized
title in `titleCache`. -/
theorem c3_counterexample :
    checkNewsFeeds oracleErr 0 [Except.ok [artFed]] ⟨[], []⟩ =
      ⟨[Ev.attempt, Ev.logSendErr ("boom".data), Ev.record (some ("g1".data)) ("fed".data)],
        ⟨[some ("g1".data)], [("fed".data, 0)]⟩, 1⟩ ∧
    some ("g1".data) ∈
      (checkNewsFeeds oracleErr 0 [Except.ok [artFed]] ⟨[], []⟩).cache.articleCache ∧
    ("fed".data, 0) ∈
      (checkNewsFeeds oracleErr 0 [Except.ok [artFed]] ⟨[], []⟩).cache.titleCache ∧
    (sendToTelegram (oracleErr 0)).countP isAttemptEv = 1 := by
  refine ⟨by decide, by decide, by decide, by decide⟩

/-- C3 (amended): when dispatch fails with a non-rate-limit delivery error,
the message is abandoned after that single attempt (no retry, no backoff
sleep) — but the entry IS recorded into the cache store: `articleCache`
gains its identity key and `titleCache` its normalized title, exactly as
after a successful dispatch. -/
theorem c3_err_abandons_but_records (o : Nat → Nat → AttemptRes) (now : Nat) (a : Article)
    (rest : List Article) (cache : CacheState) (calls : Nat) (m : List Char)
    (hseen : jsId a ∉ cache.articleCache)
    (hsim : (isSimilarTitleExists now a.title cache.titleCache).1 = false)
    (hrel : isMarketRelevant a = true)
    (hfmt : (formatMessage a (analyzeSentiment a)).isOk = true)
    (herr : o calls 0 = AttemptRes.err m) :
    sendToTelegram (o calls) = [Ev.attempt, Ev.logSendErr m] ∧
    (sendToTelegram (o calls)).countP isAttemptEv = 1 ∧
    (sendToTelegram (o calls)).countP isSleepEv = 0 ∧
    processItems o now (a :: rest) cache calls =
      ⟨Ev.attempt :: Ev.logSendErr m :: Ev.record (jsId a) a.title ::
          (processItems o now rest (postDispatchCache now a cache) (calls + 1)).evs,
        (processItems o now rest (postDispatchCache now a cache) (calls + 1)).cache,
        (processItems o now rest (postDispatchCache now a cache) (calls + 1)).calls,
        (processItems o now rest (postDispatchCache now a cache) (calls + 1)).thrown⟩ ∧
    jsId a ∈ (postDispatchCache now a cache).articleCache ∧
    (normalizeTitle a.title, now) ∈ (postDispatchCache now a cache).titleCache := by
  have hsend : sendToTelegram (o calls) = [Ev.attempt, Ev.logSendErr m] := by
    unfold sendToTelegram
    simp [sendLoop, herr]
  refine ⟨hsend, ?_, ?_, ?_, ?_, ?_⟩
  · rw [hsend]
    simp [List.countP_cons, isAttemptEv]
  · rw [hsend]
    simp [List.countP_cons, isSleepEv]
  · rw [processItems_dispatch_eq o now a rest cache calls hseen hsim hrel hfmt, hsend]
    rfl
  · exact mem_addToCache_articleCache now (jsId a) a.title
      ⟨cache.articleCache, (isSimilarTitleExists now a.title cache.titleCache).2⟩ hseen
  · rw [postDispatchCache, addToCache_titleCache]
    exact mem_mapSet _ _ _

/-- Witness for C3 (amended) at `artFed` on an empty cache with an
always-erring oracle. -/
theorem c3_err_abandons_but_records_witness :
    jsId artFed ∉ (CacheState.mk [] []).articleCache ∧
    (isSimilarTitleExists 0 artFed.title (CacheState.mk [] []).titleCache).1 = false ∧
    isMarketRelevant artFed = true ∧
    (formatMessage artFed (analyzeSentiment artFed)).isOk = true ∧
    oracleErr 0 0 = AttemptRes.err ("boom".data) ∧
    (sendToTelegram (oracleErr 0) = [Ev.attempt, Ev.logSendErr ("boom".data)] ∧
      (sendToTelegram (oracleErr 0)).countP isAttemptEv = 1 ∧
      (sendToTelegram (oracleErr 0)).countP isSleepEv = 0 ∧
      processItems oracleErr 0 [artFed] ⟨[], []⟩ 0 =
        ⟨Ev.attempt :: Ev.logSendErr ("boom".data) :: Ev.record (jsId artFed) artFed.title ::
            (processItems oracleErr 0 [] (postDispatchCache 0 artFed ⟨[], []⟩) 1).evs,
          (processItems oracleErr 0 [] (postDispatchCache 0 artFed ⟨[], []⟩) 1).cache,
          (processItems oracleErr 0 [] (postDispatchCache 0 artFed ⟨[], []⟩) 1).calls,
          (processItems oracleErr 0 [] (postDispatchCache 0 artFed ⟨[], []⟩) 1).thrown⟩ ∧
      jsId artFed ∈ (postDispatchCache 0 artFed ⟨[], []⟩).articleCache ∧
      (normalizeTitle artFed.title, 0) ∈ (postDispatchCache 0 artFed ⟨[], []⟩).titleCache) :=
  ⟨by decide, by decide, by decide, by decide, rfl,
    c3_err_abandons_but_records oracleErr 0 artFed [] ⟨[], []⟩ 0 ("boom".data)
      (by decide) (by decide) (by decide) (by decide) rfl⟩

end StockBot
